import Mathlib

/-!
Verification of the audio capture subsystem of the Teu-Im desktop app
(`src/apps/desktop/src-tauri/src/audio.rs`), shallowly embedded in Lean.

Modelling conventions:
* The two process-wide atomics `STOP_FLAG` and `IS_RUNNING` become the two
  fields of `AtomState`.
* The cpal host is modelled by the structure `Host`: the default input
  device, and the result of enumerating all input devices (which can fail,
  as `host.input_devices()` returns a `Result`).
* A cpal `Device` is modelled by its two observable effects: `name()`
  (which can fail, modelled by `Option`) and `default_input_config()`
  (a `Result`, modelled by `Except String`).
* `f32` samples are modelled as exact rationals; the distinguished inputs
  of the spec (`-1.0`, `0.0`, `1.0`) and the clamp bounds are exactly
  representable in IEEE f32 and the operations of the code are exact there.
* `i16` samples are modelled as `Int`, `u16` samples as `Nat`.
* The synchronous commands become pure functions from the host model and
  the flag state to an outcome record that also carries the list of host
  interactions performed (`HostOp`) so that "before any host interaction"
  claims are statable.
* The background thread body `run_audio_capture` becomes a pure function
  of the resolved config, the success of the stream build/play steps, and
  the number of polls until the stop flag is observed set.
-/

set_option linter.unusedVariables false

deriving instance DecidableEq for Except

namespace Audio

/-- Sample formats distinguished by `run_audio_capture`; every cpal format
other than F32, I16, U16 falls into the catch-all `other` arm. -/
inductive SampleFormat where
  | f32
  | i16
  | u16
  | other
deriving DecidableEq, Repr

/-- Resolved capture configuration (`SupportedStreamConfig` projected to the
fields the code reads: channels, sample rate, sample format). -/
structure Config where
  channels : Nat
  sample_rate : Nat
  format : SampleFormat
deriving DecidableEq, Repr

/-- A cpal input device, modelled by the two queries the code performs on
it: `name()` (fails ⟶ `none`) and `default_input_config()`. -/
structure Device where
  name : Option String
  default_input_config : Except String Config
deriving DecidableEq, Repr

/-- The cpal host, modelled by the queries the code performs on it. -/
structure Host where
  default_input_device : Option Device
  input_devices : Except String (List Device)
deriving DecidableEq, Repr

/-- The two process-wide atomic booleans of `audio.rs`. -/
structure AtomState where
  is_running : Bool
  stop_flag : Bool
deriving DecidableEq, Repr

/-- `AudioDevice` as serialized to the frontend: an id string and a name. -/
structure AudioDevice where
  id : String
  name : String
deriving DecidableEq, Repr

/-- Host interactions, recorded in order, so that claims of the form
"rejected before any host interaction" can be stated. Obtaining the host
handle itself (`cpal::default_host()`) is infallible and touches no device,
so it is not recorded. -/
inductive HostOp where
  | queryDefaultDevice
  | enumerateDevices
  | queryName
  | queryDefaultConfig
deriving DecidableEq, Repr

/-! ### Device id parsing

`start_audio_capture` parses a non-"default" id with
`device_id.strip_prefix("device_").and_then(|s| s.parse::<usize>().ok())`.
Rust unsigned-integer parsing accepts an optional leading `+` followed by
one or more ASCII digits and fails on overflow past `usize::MAX` (64-bit).
-/

/-- Model of Rust `str::strip_prefix` on character lists: remove the tag
from the front, failing when it is not there. -/
def dropTag : List Char → List Char → Option (List Char)
  | [], cs => some cs
  | _ :: _, [] => none
  | p :: ps, c :: cs => if c = p then dropTag ps cs else none

/-- Accumulate ASCII digits left to right; any non-digit fails. -/
def parseDigitsAux : List Char → Nat → Option Nat
  | [], acc => some acc
  | c :: cs, acc =>
      if c.isDigit then parseDigitsAux cs (10 * acc + (c.toNat - 48)) else none

/-- A nonempty all-digit character list, or failure. -/
def parseDigitSeq : List Char → Option Nat
  | [] => none
  | c :: cs => parseDigitsAux (c :: cs) 0

/-- Strip a single leading `+` sign, as Rust unsigned parsing allows. -/
def plusStripped (cs : List Char) : List Char :=
  match cs with
  | c :: rest => if c = '+' then rest else cs
  | [] => []

/-- Model of Rust `str::parse::<usize>()` (64-bit target): an optional
leading `+`, then one or more ASCII digits, rejecting values ≥ 2^64.
Per-step overflow checking is equivalent to the final-value check because
the accumulator grows monotonically. -/
def parseUsizeChars (cs : List Char) : Option Nat :=
  match parseDigitSeq (plusStripped cs) with
  | some n => if n < 2 ^ 64 then some n else none
  | none => none

/-- Model of `device_id.strip_prefix("device_").and_then(|s| s.parse().ok())`. -/
def parseDeviceIndex (device_id : String) : Option Nat :=
  match dropTag "device_".toList device_id.toList with
  | some rest => parseUsizeChars rest
  | none => none

/-- Numeric value of an ASCII digit string, most significant digit first. -/
def digitsVal : List Char → Nat → Nat
  | [], acc => acc
  | c :: cs, acc => digitsVal cs (10 * acc + (c.toNat - 48))

/-- The well-formed device-id shape as the spec words it: `"default"`, or
`"device_<number>"` with `<number>` a (nonempty) string of decimal digits.
This is the shape predicate the claim about malformed ids quantifies over. -/
def claimedIdShape (s : String) : Bool :=
  decide (s = "default") ||
  (match dropTag "device_".toList s.toList with
   | some rest => !rest.isEmpty && rest.all Char.isDigit
   | none => false)

/-- The device-id shape the code actually accepts: `"default"`, or
`"device_<number>"` where `<number>` is what Rust usize parsing accepts —
an optional leading `+`, then one or more decimal digits, with a value
below 2^64. -/
def acceptedIdShape (s : String) : Bool :=
  decide (s = "default") ||
  (match dropTag "device_".toList s.toList with
   | some rest =>
       !(plusStripped rest).isEmpty && (plusStripped rest).all Char.isDigit
         && decide (digitsVal (plusStripped rest) 0 < 2 ^ 64)
   | none => false)

/-! ### Rust slice `chunks`

`data.chunks(c)` splits a slice into consecutive chunks of `c` elements,
the final chunk possibly shorter (never empty). Defined with fuel equal to
the list length; for `1 ≤ c` the fuel never runs out. -/

/-- Fuelled core of `chunksList`. -/
def chunksGo (c : Nat) : Nat → List α → List (List α)
  | _, [] => []
  | 0, l => [l]
  | fuel + 1, l => l.take c :: chunksGo c fuel (l.drop c)

/-- Model of Rust `slice::chunks(c)` as a function on lists. -/
def chunksList (c : Nat) (l : List α) : List (List α) :=
  chunksGo c l.length l

/-! ### Per-sample conversions -/

/-- Truncation of a rational toward zero, as Rust `as` casts from float to
integer do (before saturation). -/
def truncTowardZero (q : ℚ) : Int :=
  if q < 0 then ⌈q⌉ else ⌊q⌋

/-- Model of the Rust `as i16` cast from a float value: truncate toward
zero, saturating at the i16 bounds. -/
def i16SatCast (q : ℚ) : Int :=
  max (-32768) (min 32767 (truncTowardZero q))

/-- Model of Rust `f32::clamp(lo, hi)` on exact values. -/
def clampQ (x lo hi : ℚ) : ℚ :=
  if x < lo then lo else if hi < x then hi else x

/-- Per-sample body of the `build_stream_f32` data callback:
`let sample = frame[0].clamp(-1.0, 1.0); if sample < 0.0
\x7b (sample * 32768.0) as i16 \x7d else \x7b (sample * 32767.0) as i16 \x7d`. -/
def f32_sample_to_i16 (x : ℚ) : Int :=
  if clampQ x (-1) 1 < 0 then i16SatCast (clampQ x (-1) 1 * 32768)
  else i16SatCast (clampQ x (-1) 1 * 32767)

/-- Model of the Rust `as i16` cast from `i32`: wrap into `[-32768, 32767]`. -/
def i32_as_i16 (v : Int) : Int :=
  (v + 32768) % 65536 - 32768

/-- Per-sample body of the `build_stream_u16` data callback:
`(frame[0] as i32 - 32768) as i16`. -/
def u16_sample_to_i16 (u : Nat) : Int :=
  i32_as_i16 ((u : Int) - 32768)

/-! ### The three converters

Each data callback computes
`data.chunks(channels).map(|frame| …frame[0]…).collect()`. Rust indexing
`frame[0]` panics on an empty chunk; the model makes that visible by
returning `none` when any chunk is empty (`List.head?`), so totality is a
provable property rather than an assumption. -/

/-- Data callback of `build_stream_f32`: mono down-mix by first-channel
selection, then f32 → i16 sample conversion. -/
def convert_f32 (channels : Nat) (data : List ℚ) : Option (List Int) :=
  (chunksList channels data).mapM fun frame => frame.head?.map f32_sample_to_i16

/-- Data callback of `build_stream_i16`: mono down-mix by first-channel
selection, samples passed through unchanged. -/
def convert_i16 (channels : Nat) (data : List Int) : Option (List Int) :=
  (chunksList channels data).mapM fun frame => frame.head?

/-- Data callback of `build_stream_u16`: mono down-mix by first-channel
selection, then u16 → i16 midpoint shift. -/
def convert_u16 (channels : Nat) (data : List Nat) : Option (List Int) :=
  (chunksList channels data).mapM fun frame => frame.head?.map u16_sample_to_i16

/-! ### `list_audio_devices` -/

/-- Entries contributed by `for (idx, device) in input_devices.enumerate()`:
the index counts every enumerated device, devices with an unreadable name
are skipped (their index is still consumed). -/
def enumeratedEntries (ds : List Device) : List AudioDevice :=
  ds.enum.filterMap fun p => p.2.name.map fun n =>
    { id := "device_" ++ toString p.1, name := n }

/-- Model of `list_audio_devices`: the default input device first (only if
it exists and its name is readable, with the `" (기본)"` suffix), then all
enumerable input devices; a failing enumeration is silently skipped. The
function has no error return in the source. -/
def list_audio_devices (host : Host) : Except String (List AudioDevice) :=
  let base : List AudioDevice :=
    match host.default_input_device with
    | some d =>
        match d.name with
        | some n => [{ id := "default", name := n ++ " (기본)" }]
        | none => []
    | none => []
  let rest : List AudioDevice :=
    match host.input_devices with
    | .ok ds => enumeratedEntries ds
    | .error _ => []
  .ok (base ++ rest)

/-! ### `start_audio_capture` -/

/-- Outcome of a `start_audio_capture` call: the returned `Result`, the
flag state after the call (before the spawned thread runs), the config
handed to the spawned background thread (`none` when nothing was spawned),
and the host interactions performed, in order. -/
structure StartOutcome where
  result : Except String Unit
  state : AtomState
  spawned : Option Config
  hostTrace : List HostOp
deriving DecidableEq, Repr

/-- Device-selection part of `start_audio_capture` (lines 66–79), returning
the chosen device or the error string, together with the host interactions
it performed. -/
def selectDevice (host : Host) (device_id : String) :
    Except String Device × List HostOp :=
  if device_id = "default" then
    match host.default_input_device with
    | some d => (.ok d, [.queryDefaultDevice])
    | none => (.error "기본 입력 장치를 찾을 수 없습니다", [.queryDefaultDevice])
  else
    match parseDeviceIndex device_id with
    | none => (.error "잘못된 장치 ID", [])
    | some idx =>
        match host.input_devices with
        | .error e => (.error e, [.enumerateDevices])
        | .ok ds =>
            match ds[idx]? with
            | some d => (.ok d, [.enumerateDevices])
            | none => (.error "장치를 찾을 수 없습니다", [.enumerateDevices])

/-- Continuation of `start_audio_capture` after device selection: read the
device name (for logging; failure is absorbed by `unwrap_or_default`),
resolve the default input config, then clear the stop flag, set the
running flag and spawn the capture thread. -/
def startAfterSelect (st : AtomState) :
    Except String Device × List HostOp → StartOutcome
  | (.error e, tr) =>
      { result := .error e, state := st, spawned := none, hostTrace := tr }
  | (.ok dev, tr) =>
      match dev.default_input_config with
      | .error e =>
          { result := .error ("기본 설정 조회 실패: " ++ e)
            state := st, spawned := none
            hostTrace := tr ++ [.queryName, .queryDefaultConfig] }
      | .ok cfg =>
          { result := .ok ()
            state := { is_running := true, stop_flag := false }
            spawned := some cfg
            hostTrace := tr ++ [.queryName, .queryDefaultConfig] }

/-- Model of `start_audio_capture`: reject if already running (before any
host work), then select the device and continue with `startAfterSelect`. -/
def start_audio_capture (host : Host) (st : AtomState) (device_id : String) :
    StartOutcome :=
  if st.is_running then
    { result := .error "오디오 캡처가 이미 실행 중입니다"
      state := st, spawned := none, hostTrace := [] }
  else
    startAfterSelect st (selectDevice host device_id)

/-! ### `run_audio_capture` (the background thread body) -/

/-- Actions the background thread performs against the audio host. -/
inductive BgAction where
  | buildStream (fmt : SampleFormat)
  | playStream
  | sleepPoll
  | dropStream
deriving DecidableEq, Repr

/-- Result of the background thread body: its host actions in order, the
final value it stores into `IS_RUNNING`, and the error messages it logged. -/
structure BgResult where
  actions : List BgAction
  is_running : Bool
  errorsLogged : List String
deriving DecidableEq, Repr

/-- Model of `run_audio_capture`. `buildOk` and `playOk` stand for the
success of `build_input_stream` and `stream.play()`; `stopAfter` is the
number of 100 ms polls of `STOP_FLAG` that read `false` before the flag is
observed set (the flag is monotone once set by `stop_audio_capture`). In
every exit path the thread stores `false` into `IS_RUNNING`. -/
def run_audio_capture (cfg : Config) (buildOk playOk : Bool)
    (stopAfter : Nat) : BgResult :=
  match cfg.format with
  | .other =>
      { actions := [], is_running := false
        errorsLogged := ["지원하지 않는 샘플 포맷"] }
  | fmt =>
      if buildOk then
        if playOk then
          { actions := [.buildStream fmt, .playStream]
              ++ List.replicate stopAfter .sleepPoll ++ [.dropStream]
            is_running := false, errorsLogged := [] }
        else
          { actions := [.buildStream fmt, .playStream], is_running := false
            errorsLogged := ["스트림 시작 실패"] }
      else
        { actions := [.buildStream fmt], is_running := false
          errorsLogged := ["스트림 생성 실패"] }

/-! ### `stop_audio_capture` -/

/-- Result of a `stop_audio_capture` call: the returned `Result`, the flag
state after the call, and the number of 50 ms sleeps performed. -/
structure StopOutcome where
  result : Except String Unit
  state : AtomState
  sleeps : Nat
deriving DecidableEq, Repr

/-- Fuelled wait loop of `stop_audio_capture`:
`while IS_RUNNING.load(SeqCst) && wait_count < 20 \x7b sleep(50ms); wait_count += 1 \x7d`.
`obs k` is the value of `IS_RUNNING` seen by the load at `wait_count = k`
(the flag is owned by the background thread, so it is an input here). -/
def stopWaitGo (obs : Nat → Bool) : Nat → Nat → Nat
  | 0, k => k
  | fuel + 1, k => if obs k then stopWaitGo obs fuel (k + 1) else k

/-- Number of sleeps `stop_audio_capture` performs given the observed
`IS_RUNNING` trace: the wait cap is 20 polls. -/
def stopSleeps (obs : Nat → Bool) : Nat :=
  stopWaitGo obs 20 0

/-- Model of `stop_audio_capture`: store `true` into `STOP_FLAG`, wait (at
most 20 × 50 ms) for `IS_RUNNING` to clear, and return `Ok(())`
unconditionally. The running flag after the call is whatever the last load
observed. -/
def stop_audio_capture (obs : Nat → Bool) (st : AtomState) : StopOutcome :=
  let s := stopSleeps obs
  { result := .ok ()
    state := { is_running := obs s, stop_flag := true }
    sleeps := s }

/-! ## Fixtures for concrete instantiations -/

/-- A microphone device fixture with a readable name and an F32 config. -/
def micDevice : Device :=
  { name := some "mic", default_input_config := .ok ⟨1, 44100, .f32⟩ }

/-- A host fixture with a default input device and no enumerable devices. -/
def micHost : Host :=
  { default_input_device := some micDevice, input_devices := .ok [] }

/-- A host fixture with no default device and an empty enumeration. -/
def emptyHost : Host :=
  { default_input_device := none, input_devices := .ok [] }

/-- A config whose sample format falls outside F32/I16/U16. -/
def otherConfig : Config := ⟨2, 48000, .other⟩

/-- A device advertising the unsupported config. -/
def otherDevice : Device :=
  { name := some "weird", default_input_config := .ok otherConfig }

/-- A host whose default device advertises the unsupported config. -/
def otherHost : Host :=
  { default_input_device := some otherDevice, input_devices := .ok [] }

/-- The flag state at process start: nothing running, no stop requested. -/
def idleState : AtomState := { is_running := false, stop_flag := false }

/-! ## Helper lemmas -/

theorem chunksGo_length {α : Type} (c : Nat) (hc : 1 ≤ c) :
    ∀ (fuel : Nat) (l : List α), l.length ≤ fuel →
      (chunksGo c fuel l).length = (l.length + c - 1) / c := by
  intro fuel
  induction fuel with
  | zero =>
      intro l hl
      have hnil : l = [] := List.length_eq_zero.mp (Nat.le_zero.mp hl)
      subst hnil
      simp [chunksGo, Nat.div_eq_of_lt (show c - 1 < c by omega)]
  | succ fuel ih =>
      intro l hl
      cases l with
      | nil => simp [chunksGo, Nat.div_eq_of_lt (show c - 1 < c by omega)]
      | cons a l' =>
          have hdrop : (List.drop c (a :: l')).length ≤ fuel := by
            simp only [List.length_drop, List.length_cons]
            simp only [List.length_cons] at hl
            omega
          simp only [chunksGo, List.length_cons, ih _ hdrop, List.length_drop]
          rcases Nat.le_total c (l'.length + 1) with h | h
          · have h1 : l'.length + 1 - c + c - 1 = l'.length := by omega
            have h2 : l'.length + 1 + c - 1 = l'.length + c := by omega
            rw [h1, h2, Nat.add_div_right _ (show 0 < c by omega)]
          · have h1 : l'.length + 1 - c = 0 := by omega
            rw [h1, Nat.div_eq_of_lt (show 0 + c - 1 < c by omega)]
            rw [Nat.div_eq_of_lt_le (k := 1) (by omega) (by omega)]

theorem chunksGo_ne_nil {α : Type} (c : Nat) (hc : 1 ≤ c) :
    ∀ (fuel : Nat) (l : List α) (ch : List α), l.length ≤ fuel →
      ch ∈ chunksGo c fuel l → ch ≠ [] := by
  intro fuel
  induction fuel with
  | zero =>
      intro l ch hl hm
      have hnil : l = [] := List.length_eq_zero.mp (Nat.le_zero.mp hl)
      subst hnil
      simp [chunksGo] at hm
  | succ fuel ih =>
      intro l ch hl hm
      cases l with
      | nil => simp [chunksGo] at hm
      | cons a l' =>
          simp only [chunksGo, List.mem_cons] at hm
          rcases hm with rfl | hm
          · intro habs
            have hlen := congrArg List.length habs
            simp only [List.length_take, List.length_cons, List.length_nil] at hlen
            omega
          · refine ih _ _ ?_ hm
            simp only [List.length_drop, List.length_cons]
            simp only [List.length_cons] at hl
            omega

theorem chunksList_length {α : Type} (c : Nat) (hc : 1 ≤ c) (l : List α) :
    (chunksList c l).length = (l.length + c - 1) / c :=
  chunksGo_length c hc l.length l le_rfl

theorem chunksList_ne_nil {α : Type} (c : Nat) (hc : 1 ≤ c) (l : List α) :
    ∀ ch ∈ chunksList c l, ch ≠ [] :=
  fun ch hch => chunksGo_ne_nil c hc l.length l ch le_rfl hch

theorem mapM_heads {α : Type} [Inhabited α] :
    ∀ L : List (List α), (∀ ch ∈ L, ch ≠ []) →
      (L.mapM fun f => f.head?) = some (L.map List.headI)
  | [], _ => rfl
  | f :: L, h => by
      have hf : f ≠ [] := h f (by simp)
      cases f with
      | nil => exact absurd rfl hf
      | cons a f' =>
          rw [List.mapM_cons, mapM_heads L (fun ch hch => h ch (by simp [hch]))]
          simp

theorem mapM_heads_map {α β : Type} [Inhabited α] (g : α → β) :
    ∀ L : List (List α), (∀ ch ∈ L, ch ≠ []) →
      (L.mapM fun f => f.head?.map g) = some (L.map fun f => g f.headI)
  | [], _ => rfl
  | f :: L, h => by
      have hf : f ≠ [] := h f (by simp)
      cases f with
      | nil => exact absurd rfl hf
      | cons a f' =>
          rw [List.mapM_cons, mapM_heads_map g L (fun ch hch => h ch (by simp [hch]))]
          simp

theorem convert_f32_eq (c : Nat) (hc : 1 ≤ c) (data : List ℚ) :
    convert_f32 c data
      = some ((chunksList c data).map fun f => f32_sample_to_i16 f.headI) :=
  mapM_heads_map f32_sample_to_i16 _ (chunksList_ne_nil c hc data)

theorem convert_i16_eq (c : Nat) (hc : 1 ≤ c) (data : List Int) :
    convert_i16 c data = some ((chunksList c data).map List.headI) :=
  mapM_heads _ (chunksList_ne_nil c hc data)

theorem convert_u16_eq (c : Nat) (hc : 1 ≤ c) (data : List Nat) :
    convert_u16 c data
      = some ((chunksList c data).map fun f => u16_sample_to_i16 f.headI) :=
  mapM_heads_map u16_sample_to_i16 _ (chunksList_ne_nil c hc data)

theorem stopWaitGo_le (obs : Nat → Bool) :
    ∀ (fuel k : Nat), stopWaitGo obs fuel k ≤ k + fuel := by
  intro fuel
  induction fuel with
  | zero => intro k; simp [stopWaitGo]
  | succ fuel ih =>
      intro k
      rw [stopWaitGo]
      split
      · have := ih (k + 1)
        omega
      · omega

theorem parseDigitsAux_eq :
    ∀ (cs : List Char) (acc : Nat),
      parseDigitsAux cs acc =
        if cs.all Char.isDigit then some (digitsVal cs acc) else none
  | [], acc => by simp [parseDigitsAux, digitsVal]
  | c :: cs, acc => by
      by_cases hd : c.isDigit
      · simp [parseDigitsAux, digitsVal, hd, parseDigitsAux_eq cs]
      · simp [parseDigitsAux, hd]

theorem parseUsizeChars_eq (cs : List Char) :
    parseUsizeChars cs =
      if (!(plusStripped cs).isEmpty && (plusStripped cs).all Char.isDigit
          && decide (digitsVal (plusStripped cs) 0 < 2 ^ 64)) = true then
        some (digitsVal (plusStripped cs) 0)
      else none := by
  unfold parseUsizeChars
  cases hb : plusStripped cs with
  | nil => simp [parseDigitSeq]
  | cons d ds =>
      rw [parseDigitSeq, parseDigitsAux_eq]
      by_cases hall : (d :: ds).all Char.isDigit
      · by_cases hlt : digitsVal (d :: ds) 0 < 2 ^ 64
        · simp [hall, hlt]
        · simp [hall, hlt]
      · simp [hall]

theorem acceptedIdShape_false_parse (s : String)
    (h : acceptedIdShape s = false) (hdef : s ≠ "default") :
    parseDeviceIndex s = none := by
  unfold acceptedIdShape at h
  unfold parseDeviceIndex
  cases hdt : dropTag "device_".toList s.toList with
  | none => rfl
  | some rest =>
      rw [hdt] at h
      simp only [Bool.or_eq_false_iff] at h
      show parseUsizeChars rest = none
      rw [parseUsizeChars_eq, h.2]
      simp

theorem start_ok_state (host : Host) (st : AtomState) (id : String)
    (h : (start_audio_capture host st id).result = .ok ()) :
    (start_audio_capture host st id).state
      = { is_running := true, stop_flag := false } := by
  unfold start_audio_capture at h ⊢
  cases hr : st.is_running with
  | true => rw [hr] at h; simp at h
  | false =>
      rw [hr] at h
      simp only [Bool.false_eq_true, if_false] at h ⊢
      rcases hsel : selectDevice host id with ⟨res, tr⟩
      rw [hsel] at h
      cases res with
      | error e => simp [startAfterSelect] at h
      | ok dev =>
          simp only [startAfterSelect] at h ⊢
          cases hcfg : dev.default_input_config with
          | error e => rw [hcfg] at h; simp at h
          | ok cfg => rfl

theorem start_err_state (host : Host) (st : AtomState) (id : String)
    (h : (start_audio_capture host st id).result.isOk = false) :
    (start_audio_capture host st id).state = st
      ∧ (start_audio_capture host st id).spawned = none := by
  unfold start_audio_capture at h ⊢
  cases hr : st.is_running with
  | true => exact ⟨rfl, rfl⟩
  | false =>
      rw [hr] at h
      simp only [Bool.false_eq_true, if_false] at h ⊢
      rcases hsel : selectDevice host id with ⟨res, tr⟩
      rw [hsel] at h
      cases res with
      | error e => exact ⟨rfl, rfl⟩
      | ok dev =>
          simp only [startAfterSelect] at h ⊢
          cases hcfg : dev.default_input_config with
          | error e => exact ⟨rfl, rfl⟩
          | ok cfg => rw [hcfg] at h; simp [Except.isOk, Except.toBool] at h

theorem clampQ_eq_max_min (x : ℚ) : clampQ x (-1) 1 = max (-1) (min 1 x) := by
  unfold clampQ
  split_ifs with h1 h2
  · rw [min_eq_right (le_trans h1.le (by norm_num)), max_eq_left h1.le]
  · rw [min_eq_left h2.le, max_eq_right (by norm_num)]
  · rw [min_eq_right (le_of_not_lt h2), max_eq_right (le_of_not_lt h1)]

theorem i16SatCast_eq_trunc (q : ℚ) (h1 : -32768 ≤ q) (h2 : q ≤ 32767) :
    i16SatCast q = truncTowardZero q := by
  unfold i16SatCast truncTowardZero
  split_ifs with hq
  · rw [min_eq_right (Int.ceil_le.mpr (by exact_mod_cast h2)),
      max_eq_right (by exact_mod_cast le_trans h1 (Int.le_ceil q))]
  · rw [min_eq_right (by exact_mod_cast le_trans (Int.floor_le q) h2),
      max_eq_right (Int.le_floor.mpr (by exact_mod_cast h1))]

theorem f32_sample_eq_spec (x : ℚ) :
    f32_sample_to_i16 x =
      truncTowardZero
        (if max (-1) (min 1 x) < 0 then max (-1) (min 1 x) * 32768
         else max (-1) (min 1 x) * 32767) := by
  unfold f32_sample_to_i16
  rw [clampQ_eq_max_min]
  have hs1 : (-1 : ℚ) ≤ max (-1) (min 1 x) := le_max_left _ _
  have hs2 : max (-1) (min 1 x) ≤ 1 := max_le (by norm_num) (min_le_left _ _)
  split_ifs with h
  · exact i16SatCast_eq_trunc _ (by nlinarith) (by nlinarith)
  · exact i16SatCast_eq_trunc _ (by nlinarith) (by nlinarith)

theorem ceil_neg_32768 : ⌈(-32768 : ℚ)⌉ = (-32768 : ℤ) := by
  have h := Int.ceil_intCast (α := ℚ) (-32768)
  norm_num at h
  exact h

theorem f32_at_one : f32_sample_to_i16 1 = 32767 := by
  unfold f32_sample_to_i16 clampQ i16SatCast truncTowardZero
  norm_num

theorem f32_at_negone : f32_sample_to_i16 (-1) = -32768 := by
  unfold f32_sample_to_i16 clampQ i16SatCast truncTowardZero
  norm_num [ceil_neg_32768]

theorem f32_at_zero : f32_sample_to_i16 0 = 0 := by
  unfold f32_sample_to_i16 clampQ i16SatCast truncTowardZero
  norm_num

/-! ## The claims -/

/-- C1: if a capture session is already active (`IS_RUNNING` set), then
`start_audio_capture` returns the already-running error, before any device
lookup or config resolution (empty host trace) and without changing the
flags; consequently a second start call, on the state left by a successful
first start with no completed stop in between, returns that same error. -/
theorem claim_start_already_running
    (host : Host) (st : AtomState) (id : String) (host2 : Host) (id2 : String) :
    (st.is_running = true →
      (start_audio_capture host st id).result
          = .error "오디오 캡처가 이미 실행 중입니다"
        ∧ (start_audio_capture host st id).hostTrace = []
        ∧ (start_audio_capture host st id).state = st)
    ∧ ((start_audio_capture host st id).result = .ok () →
      (start_audio_capture host2 (start_audio_capture host st id).state id2).result
          = .error "오디오 캡처가 이미 실행 중입니다") := by
  constructor
  · intro h
    unfold start_audio_capture
    rw [h]
    exact ⟨rfl, rfl, rfl⟩
  · intro h
    rw [start_ok_state host st id h]
    unfold start_audio_capture
    exact rfl

/-- Witness for C1: with the running flag set, start fails with the
already-running error; and a successful start followed by a second start
with no intervening stop fails the same way. -/
theorem claim_start_already_running_witness :
    (start_audio_capture micHost { is_running := true, stop_flag := false }
        "default").result = .error "오디오 캡처가 이미 실행 중입니다"
    ∧ (start_audio_capture micHost
        ((start_audio_capture micHost idleState "default").state)
        "default").result = .error "오디오 캡처가 이미 실행 중입니다" :=
  ⟨((claim_start_already_running micHost
      { is_running := true, stop_flag := false } "default" micHost "default").1
      rfl).1,
   (claim_start_already_running micHost idleState "default" micHost
      "default").2 (by decide)⟩

/-- C2: `stop_audio_capture` returns success for every flag state and every
observed behaviour of the background thread, its wait is capped at 20 polls
of 50 ms (at most 1000 ms), and with no session running it does not wait at
all. -/
theorem claim_stop_always_ok (obs : Nat → Bool) (st : AtomState) :
    (stop_audio_capture obs st).result = .ok ()
    ∧ (stop_audio_capture obs st).sleeps ≤ 20
    ∧ 50 * (stop_audio_capture obs st).sleeps ≤ 1000
    ∧ (stop_audio_capture obs st).state.stop_flag = true
    ∧ (stop_audio_capture (fun _ => false) st).sleeps = 0 := by
  have h := stopWaitGo_le obs 20 0
  refine ⟨rfl, ?_, ?_, rfl, rfl⟩
  · show stopSleeps obs ≤ 20
    unfold stopSleeps
    omega
  · show 50 * stopSleeps obs ≤ 1000
    unfold stopSleeps
    omega

/-- C3 counterexample: on a 3-sample buffer with 2 channels every converter
produces 2 output samples, not `3 / 2 = 1` (the floor the claim states):
Rust `chunks` yields a short final chunk instead of dropping it. -/
theorem claim_converter_length_floor_counterexample :
    ((convert_f32 2 [0, 0, 0]).map List.length
        ≠ some (([0, 0, 0] : List ℚ).length / 2))
    ∧ ((convert_i16 2 [0, 0, 0]).map List.length
        ≠ some (([0, 0, 0] : List Int).length / 2))
    ∧ ((convert_u16 2 [0, 0, 0]).map List.length
        ≠ some (([0, 0, 0] : List Nat).length / 2)) := by
  refine ⟨?_, by decide, by decide⟩
  rw [convert_f32_eq 2 (by norm_num),
    show chunksList 2 [(0 : ℚ), 0, 0] = [[0, 0], [0]] from rfl]
  simp

/-- C3 (amended): for every nonzero channel count, each of the three
converters produces one output sample per chunk, so the output length is
the input length divided by the channel count rounded up (ceiling), not
down. -/
theorem claim_converter_length_ceil (c : Nat) (hc : 1 ≤ c)
    (dq : List ℚ) (di : List Int) (du : List Nat) :
    (convert_f32 c dq).map List.length = some ((dq.length + c - 1) / c)
    ∧ (convert_i16 c di).map List.length = some ((di.length + c - 1) / c)
    ∧ (convert_u16 c du).map List.length = some ((du.length + c - 1) / c) := by
  refine ⟨?_, ?_, ?_⟩
  · rw [convert_f32_eq c hc]
    simp [chunksList_length c hc]
  · rw [convert_i16_eq c hc]
    simp [chunksList_length c hc]
  · rw [convert_u16_eq c hc]
    simp [chunksList_length c hc]

/-- Witness for C3 (amended) at channel count 2 and concrete buffers. -/
theorem claim_converter_length_ceil_witness :
    (convert_f32 2 ([] : List ℚ)).map List.length = some ((0 + 2 - 1) / 2)
    ∧ (convert_i16 2 [5, 6, 7]).map List.length = some ((3 + 2 - 1) / 2)
    ∧ (convert_u16 2 [1, 2]).map List.length = some ((2 + 2 - 1) / 2) := by
  have h := claim_converter_length_ceil 2 (by decide) [] [5, 6, 7] [1, 2]
  simpa using h

/-- C4: the F32 converter clamps each sample to `[-1, 1]`, scales negative
values by 32768 and non-negative ones by 32767, truncates toward zero, and
maps `1.0` to 32767, `-1.0` to -32768 and `0.0` to 0 (f32 modelled by
exact rationals; all listed computations are exact in IEEE f32). -/
theorem claim_f32_converter_semantics :
    (∀ x : ℚ, f32_sample_to_i16 x =
      truncTowardZero
        (if max (-1) (min 1 x) < 0 then max (-1) (min 1 x) * 32768
         else max (-1) (min 1 x) * 32767))
    ∧ f32_sample_to_i16 1 = 32767
    ∧ f32_sample_to_i16 (-1) = -32768
    ∧ f32_sample_to_i16 0 = 0
    ∧ convert_f32 1 [1, -1, 0] = some [32767, -32768, 0] := by
  refine ⟨f32_sample_eq_spec, f32_at_one, f32_at_negone, f32_at_zero, ?_⟩
  rw [convert_f32_eq 1 le_rfl,
    show chunksList 1 [(1 : ℚ), -1, 0] = [[1], [-1], [0]] from rfl]
  simp [f32_at_one, f32_at_negone, f32_at_zero]

/-- C5: the U16 converter maps a sample `u` to `u - 32768` reinterpreted as
a signed 16-bit value; 32768 maps to 0, 0 to -32768, 65535 to 32767. -/
theorem claim_u16_converter_semantics (u : Nat) (hu : u < 65536) :
    u16_sample_to_i16 u = (u : Int) - 32768
    ∧ u16_sample_to_i16 32768 = 0
    ∧ u16_sample_to_i16 0 = -32768
    ∧ u16_sample_to_i16 65535 = 32767
    ∧ convert_u16 1 [32768, 0, 65535] = some [0, -32768, 32767] := by
  refine ⟨?_, by decide, by decide, by decide, by decide⟩
  unfold u16_sample_to_i16 i32_as_i16
  omega

/-- Witness for C5 at the concrete sample 12345. -/
theorem claim_u16_converter_semantics_witness :
    u16_sample_to_i16 12345 = (12345 : Int) - 32768 :=
  (claim_u16_converter_semantics 12345 (by decide)).1

/-- C6: on a resolved format outside F32/I16/U16 the background thread
performs no host action at all (no stream is built, none is played),
stores `false` into the running flag (back to idle) and logs an error;
while `start_audio_capture` itself — whose synchronous checks all passed —
has already returned `Ok`, so the error never reaches its caller. -/
theorem claim_unsupported_format_rejected (cfg : Config)
    (buildOk playOk : Bool) (stopAfter : Nat) (host : Host) (st : AtomState)
    (dev : Device) (hfmt : cfg.format = .other) :
    (run_audio_capture cfg buildOk playOk stopAfter).actions = []
    ∧ (run_audio_capture cfg buildOk playOk stopAfter).is_running = false
    ∧ (run_audio_capture cfg buildOk playOk stopAfter).errorsLogged ≠ []
    ∧ (st.is_running = false → host.default_input_device = some dev →
        dev.default_input_config = .ok cfg →
        (start_audio_capture host st "default").result = .ok ()
        ∧ (start_audio_capture host st "default").spawned = some cfg) := by
  obtain ⟨ch, sr, fmt⟩ := cfg
  simp only at hfmt
  subst hfmt
  refine ⟨rfl, rfl, by simp [run_audio_capture], ?_⟩
  intro h1 h2 h3
  have hsel : selectDevice host "default" = (.ok dev, [.queryDefaultDevice]) := by
    unfold selectDevice
    rw [if_pos rfl, h2]
  unfold start_audio_capture
  rw [h1]
  simp only [Bool.false_eq_true, if_false]
  rw [hsel]
  simp only [startAfterSelect]
  rw [h3]
  exact ⟨rfl, rfl⟩

/-- Witness for C6: the fixture host advertising an unsupported format. -/
theorem claim_unsupported_format_rejected_witness :
    (run_audio_capture otherConfig true true 0).actions = []
    ∧ (run_audio_capture otherConfig true true 0).is_running = false
    ∧ (start_audio_capture otherHost idleState "default").result = .ok () := by
  have h := claim_unsupported_format_rejected otherConfig true true 0
    otherHost idleState otherDevice rfl
  exact ⟨h.1, h.2.1, (h.2.2.2 rfl rfl rfl).1⟩

/-- C7 counterexample: `"device_+0"` is not of the shape
`"device_<number>"` with `<number>` a decimal numeral, yet
`start_audio_capture` does not reject it as an invalid id — Rust integer
parsing accepts a leading `+` — and it does reach the host: the input
devices are enumerated. -/
theorem claim_invalid_id_counterexample :
    claimedIdShape "device_+0" = false
    ∧ (start_audio_capture emptyHost idleState "device_+0").result
        ≠ .error "잘못된 장치 ID"
    ∧ (start_audio_capture emptyHost idleState "device_+0").hostTrace
        = [.enumerateDevices] := by
  refine ⟨by decide, by decide, by decide⟩

/-- C7 (amended): for every device id that is neither `"default"` nor
`"device_<number>"` with `<number>` accepted by Rust usize parsing (an
optional leading `+`, then decimal digits, value below 2^64), a start call
in the idle state returns the invalid-device-id error with no host
interaction at all and the flags unchanged. -/
theorem claim_invalid_id_rejected_early (host : Host) (st : AtomState)
    (id : String) (hrun : st.is_running = false)
    (h : acceptedIdShape id = false) :
    (start_audio_capture host st id).result = .error "잘못된 장치 ID"
    ∧ (start_audio_capture host st id).hostTrace = []
    ∧ (start_audio_capture host st id).state = st := by
  have hdef : id ≠ "default" := by
    intro hid
    rw [hid] at h
    simp [acceptedIdShape] at h
  have hp : parseDeviceIndex id = none := acceptedIdShape_false_parse id h hdef
  unfold start_audio_capture selectDevice
  rw [hrun]
  simp only [Bool.false_eq_true, if_false, if_neg hdef, hp]
  exact ⟨rfl, rfl, rfl⟩

/-- Witness for C7 (amended) at the malformed id `"device_12a"`. -/
theorem claim_invalid_id_rejected_early_witness :
    (start_audio_capture emptyHost idleState "device_12a").result
        = .error "잘못된 장치 ID"
    ∧ (start_audio_capture emptyHost idleState "device_12a").hostTrace = [] :=
  ⟨(claim_invalid_id_rejected_early emptyHost idleState "device_12a" rfl
      (by decide)).1,
   (claim_invalid_id_rejected_early emptyHost idleState "device_12a" rfl
      (by decide)).2.1⟩

/-- C8: `list_audio_devices` has no failing path at all in the model (the
host handle is obtained infallibly); with no default device and an empty
enumeration it returns the empty list, not an error; and when enumerating
all devices fails but the default device was collected, the call still
succeeds with the default entry. -/
theorem claim_list_devices_best_effort (host : Host) :
    (list_audio_devices host).isOk = true
    ∧ (host.default_input_device = none → host.input_devices = .ok [] →
        list_audio_devices host = .ok [])
    ∧ (∀ (e : String) (d : Device) (n : String),
        host.input_devices = .error e →
        host.default_input_device = some d → d.name = some n →
        list_audio_devices host
          = .ok [{ id := "default", name := n ++ " (기본)" }]) := by
  refine ⟨rfl, ?_, ?_⟩
  · intro h1 h2
    unfold list_audio_devices
    rw [h1, h2]
    rfl
  · intro e d n h1 h2 h3
    obtain ⟨dn, dc⟩ := d
    have h3' : dn = some n := h3
    subst h3'
    unfold list_audio_devices
    rw [h1, h2]
    rfl

/-- Witness for C8: the empty host yields `ok []`; a host whose
enumeration fails but whose default device reads its name yields exactly
the default entry. -/
theorem claim_list_devices_best_effort_witness :
    list_audio_devices emptyHost = .ok []
    ∧ list_audio_devices
        { default_input_device := some micDevice, input_devices := .error "backend" }
        = .ok [{ id := "default", name := "mic" ++ " (기본)" }] :=
  ⟨(claim_list_devices_best_effort emptyHost).2.1 rfl rfl,
   (claim_list_devices_best_effort
      { default_input_device := some micDevice, input_devices := .error "backend" }).2.2
      "backend" micDevice "mic" rfl rfl rfl⟩

/-- C9: for every channel count ≥ 1 and every buffer — also of a length
that is not a multiple of the channel count — every chunk `chunks`
produces is non-empty, so the `frame[0]` access is in bounds and all three
converters are total (no `none`, the model image of a panic). -/
theorem claim_converters_total (c : Nat) (hc : 1 ≤ c)
    (dq : List ℚ) (di : List Int) (du : List Nat) :
    (∀ ch ∈ chunksList c di, ch ≠ [])
    ∧ (convert_f32 c dq).isSome = true
    ∧ (convert_i16 c di).isSome = true
    ∧ (convert_u16 c du).isSome = true := by
  refine ⟨chunksList_ne_nil c hc di, ?_, ?_, ?_⟩
  · rw [convert_f32_eq c hc]; rfl
  · rw [convert_i16_eq c hc]; rfl
  · rw [convert_u16_eq c hc]; rfl

/-- Witness for C9 at channel count 2 with a buffer of odd length. -/
theorem claim_converters_total_witness :
    (convert_f32 2 ([] : List ℚ)).isSome = true
    ∧ (convert_i16 2 [1, 2, 3]).isSome = true
    ∧ (convert_u16 2 [7]).isSome = true :=
  ⟨(claim_converters_total 2 (by decide) [] [1, 2, 3] [7]).2.1,
   (claim_converters_total 2 (by decide) [] [1, 2, 3] [7]).2.2.1,
   (claim_converters_total 2 (by decide) [] [1, 2, 3] [7]).2.2.2⟩

/-- C10: whenever `start_audio_capture` returns an error synchronously (in
any of its four synchronous error cases), both flags are exactly as before
the call and no background thread was spawned: the flag writes happen only
after every synchronous check has passed. -/
theorem claim_failed_start_preserves_flags (host : Host) (st : AtomState)
    (id : String)
    (h : (start_audio_capture host st id).result.isOk = false) :
    (start_audio_capture host st id).state = st
    ∧ (start_audio_capture host st id).spawned = none :=
  start_err_state host st id h

/-- Witness for C10: a start that fails (no default input device exists)
leaves the idle flags untouched and spawns nothing. -/
theorem claim_failed_start_preserves_flags_witness :
    (start_audio_capture emptyHost idleState "default").state = idleState
    ∧ (start_audio_capture emptyHost idleState "default").spawned = none :=
  claim_failed_start_preserves_flags emptyHost idleState "default" (by decide)

end Audio
